import Mathlib

/-!
Shallow embedding of the Voice-Tone-Analyzer front-end.

The definitions below translate the source of the repository:
* `analyzeVoiceTone` and its catch-block error mapping translate
  `services/geminiService.ts`;
* `AppState` and the `handle...` functions translate the state owned by the
  root `App` component together with its event handlers (`handleFileSelect`,
  `handleStartRecording` with its `onstop` closure, `handleStopRecording`,
  `handleClearRecording`, `validateApiKey`, `handleApiKeySave`,
  `handleAnalyze`, `handleExampleClick`);
* `handleTabChange` translates `components/AudioUploader.tsx`.

Asynchronous browser callbacks (the microphone-permission outcome, the
recorder's `ondataavailable` / `onstop` events) are modelled as explicit
events of the step relation `stepEv`; `run` folds a sequence of events from
the initial component state.  Side effects that leave the component (audio
cues, calls into the analysis client, writes to local storage) are recorded
explicitly: cues as `List Cue` results, the stored API key as the
`storedKey` field, analysis-client calls in `AnalyzeEffects`.
-/

/-- Substring test, the translation of JavaScript `String.prototype.includes`. -/
def strContains (s pat : String) : Bool :=
  (List.range (s.data.length + 1)).any fun i => pat.data.isPrefixOf (s.data.drop i)

/-- Prefix test, the translation of JavaScript `String.prototype.startsWith`. -/
def strStartsWith (s pre : String) : Bool :=
  pre.data.isPrefixOf s.data

/-- Lower-casing, the translation of JavaScript `String.prototype.toLowerCase`. -/
def strToLower (s : String) : String :=
  String.mk (s.data.map Char.toLower)

/-- Whitespace trimming, the translation of JavaScript `String.prototype.trim`. -/
def strTrim (s : String) : String :=
  String.mk (((s.data.dropWhile Char.isWhitespace).reverse.dropWhile
    Char.isWhitespace).reverse)

/-- Split of a character list at every occurrence of a character, the
translation of JavaScript `String.prototype.split` with a one-character
separator. -/
def splitOnChar (c : Char) : List Char → List (List Char)
  | [] => [[]]
  | x :: xs =>
    if x = c then
      [] :: splitOnChar c xs
    else
      match splitOnChar c xs with
      | [] => [[x]]
      | y :: ys => (x :: y) :: ys

/-- A browser `File`: name, MIME type, and its byte contents. -/
structure File where
  name : String
  mimeType : String
  data : List Nat
deriving DecidableEq

/-- Audible cues emitted through `playAudioFeedback` in `utils/audioFeedback.ts`. -/
inductive Cue
  | success
  | error
deriving DecidableEq

/-- The `state` attribute of a `MediaRecorder`: `recording` after `start()`,
`inactive` after `stop()`. -/
inductive RecorderState
  | recording
  | inactive
deriving DecidableEq

/-- The part of a browser `MediaRecorder` the application observes. -/
structure MediaRecorder where
  state : RecorderState
  mimeType : String
deriving DecidableEq

/-- The two tabs of `AudioUploader`. -/
inductive Tab
  | upload
  | record
deriving DecidableEq

/-- The mutable state owned by the `App` component (its `useState` hooks and
refs), plus the `activeTab` state of `AudioUploader` and the persisted
`GEMINI_API_KEY` local-storage entry (`storedKey`).  `pendingStops` counts
queued `onstop` callbacks of stopped recorders that have not fired yet. -/
structure AppState where
  audioFile : Option File
  isLoading : Bool
  analysisResult : String
  error : String
  apiKey : String
  isKeySaved : Bool
  apiKeyError : String
  isAudioFeedbackEnabled : Bool
  isRecording : Bool
  audioURL : Option String
  recorder : Option MediaRecorder
  chunks : List (List Nat)
  pendingStops : Nat
  activeTab : Tab
  storedKey : Option String
deriving DecidableEq

/-- The initial state of the component tree (no env key, empty storage). -/
def initState : AppState :=
  { audioFile := none
    isLoading := false
    analysisResult := ""
    error := ""
    apiKey := ""
    isKeySaved := false
    apiKeyError := ""
    isAudioFeedbackEnabled := true
    isRecording := false
    audioURL := none
    recorder := none
    chunks := []
    pendingStops := 0
    activeTab := Tab.upload
    storedKey := none }

/-- Fixed user-facing sentence of the catch block for invalid-key failures. -/
def invalidKeySentence : String :=
  "The provided API key is not valid or lacks the necessary permissions. Please check your key and try again."

/-- Fixed user-facing sentence of the catch block for quota failures. -/
def quotaSentence : String :=
  "You have exceeded your API quota. Please check your usage and billing information with Google AI Studio."

/-- Fixed user-facing sentence of the catch block for 400 failures. -/
def badRequestSentence : String :=
  "The request was invalid. This may be due to a problem with the uploaded audio file or its format."

/-- Fixed fallback sentence of the catch block for other `Error` failures. -/
def genericSentence : String :=
  "An error occurred during analysis. Please try again later."

/-- Initial value of `userFriendlyMessage`, kept when the thrown value is not
an `Error` instance. -/
def unknownSentence : String :=
  "An unknown error occurred while communicating with the Gemini API."

/-- The catch block of `analyzeVoiceTone` in `services/geminiService.ts`:
the underlying failure is `some msg` when the thrown value is an `Error`
with message `msg`, and `none` when it is not an `Error` instance. -/
def mapGeminiError : Option String → String
  | some msg =>
    if strContains (strToLower msg) "api key not valid" || strContains (strToLower msg) "permission denied" then
      invalidKeySentence
    else if strContains (strToLower msg) "quota" then
      quotaSentence
    else if strContains (strToLower msg) "400 bad request" then
      badRequestSentence
    else
      genericSentence
  | none => unknownSentence

/-- The analysis client `analyzeVoiceTone` of `services/geminiService.ts`.
`remote` is the behaviour of the single `generateContent` network call:
`Except.ok text` for a successful response, `Except.error e` for a thrown
failure (`e` as in `mapGeminiError`).  The second component records whether
the network call was reached. -/
def analyzeVoiceTone (base64Audio mimeType apiKey : String)
    (remote : Except (Option String) String) : Except String String × Bool :=
  if apiKey = "" then
    (Except.error "A valid Gemini API key is required to perform the analysis.", false)
  else
    match remote with
    | Except.ok text => (Except.ok (strTrim text), true)
    | Except.error e => (Except.error (mapGeminiError e), true)

/-- Base64 alphabet. -/
def base64Alphabet : List Char :=
  "ABCDEFGHIJKLMNOPQRSTUVWXYZabcdefghijklmnopqrstuvwxyz0123456789+/".data

/-- Character of the base64 alphabet at a 6-bit index. -/
def b64Char (n : Nat) : Char :=
  base64Alphabet.getD n (Char.ofNat 65)

/-- Base64 encoding of a byte list (bytes taken modulo 256), with padding. -/
def encodeBase64 : List Nat → String
  | [] => ""
  | [b1] =>
    let x := b1 % 256
    String.mk [b64Char (x / 4), b64Char (x % 4 * 16)] ++ "=="
  | [b1, b2] =>
    let x := b1 % 256
    let y := b2 % 256
    String.mk [b64Char (x / 4), b64Char (x % 4 * 16 + y / 16), b64Char (y % 16 * 4)] ++ "="
  | b1 :: b2 :: b3 :: rest =>
    let x := b1 % 256
    let y := b2 % 256
    let z := b3 % 256
    String.mk [b64Char (x / 4), b64Char (x % 4 * 16 + y / 16),
               b64Char (y % 16 * 4 + z / 64), b64Char (z % 64)] ++ encodeBase64 rest

/-- Modelled from the spec: `fileToBase64` lives in `utils/fileUtils.ts`,
which is not among the provided source files; per the spec the audio is
base64-encoded and the request carries the source bytes as base64 together
with the file MIME type, so the function returns the base64 encoding of
the file bytes and the file MIME type. -/
def fileToBase64 (f : File) : String × String :=
  (encodeBase64 f.data, f.mimeType)

/-- The `App` handler `handleStopRecording`: stops the recorder when one
exists and is recording (queueing its `onstop` callback) and resets
`isRecording`. -/
def handleStopRecording (s : AppState) : AppState :=
  match s.recorder with
  | some r =>
    if r.state = RecorderState.recording then
      { s with recorder := some { r with state := RecorderState.inactive }
               isRecording := false
               pendingStops := s.pendingStops + 1 }
    else s
  | none => s

/-- The `App` handler `handleFileSelect`: installs the file, clears result,
error and recording URL, and stops an in-progress recording. -/
def handleFileSelect (s : AppState) (file : Option File) : AppState :=
  let s1 := { s with audioFile := file
                     analysisResult := ""
                     error := ""
                     audioURL := none }
  if s1.recorder.isSome ∧ s1.isRecording then handleStopRecording s1 else s1

/-- Error message set when microphone permission is denied. -/
def micDeniedMsg : String :=
  "Microphone access was denied. Please allow microphone access in your browser\x27s settings to use this feature."

/-- Error message set when the browser offers no recording capability. -/
def unsupportedMsg : String :=
  "Audio recording is not supported in this browser."

/-- Outcome of `navigator.mediaDevices.getUserMedia`: granted (with the
resulting recorder MIME type), denied, or API unavailable. -/
inductive MicResult
  | granted (mime : String)
  | denied
  | unsupported
deriving DecidableEq

/-- The `App` handler `handleStartRecording`, parameterised by the outcome of
the microphone request; returns the new state and the emitted cues. -/
def handleStartRecording (s : AppState) (r : MicResult) : AppState × List Cue :=
  let s1 := { s with error := ""
                     analysisResult := ""
                     audioFile := none
                     audioURL := none }
  match r with
  | MicResult.granted mime =>
    ({ s1 with recorder := some { state := RecorderState.recording, mimeType := mime }
               chunks := []
               isRecording := true }, [])
  | MicResult.denied =>
    ({ s1 with error := micDeniedMsg },
     if s.isAudioFeedbackEnabled then [Cue.error] else [])
  | MicResult.unsupported =>
    ({ s1 with error := unsupportedMsg },
     if s.isAudioFeedbackEnabled then [Cue.error] else [])

/-- Effective MIME type computed in the `onstop` closure:
`mediaRecorderRef.current?.mimeType || 'audio/webm'`. -/
def effectiveRecMime (s : AppState) : String :=
  match s.recorder with
  | some r => if r.mimeType = "" then "audio/webm" else r.mimeType
  | none => "audio/webm"

/-- Subtype part used for the recorded file name: `mimeType.split('/')[1]`
(the JavaScript index on a one-part split yields `undefined`, which the
template literal renders as the text `undefined`). -/
def mimeSubtype (m : String) : String :=
  ((splitOnChar (Char.ofNat 47) m.data).map String.mk).getD 1 "undefined"

/-- The `File` the `onstop` closure packages from the buffered chunks. -/
def recordedFileOf (s : AppState) : File :=
  { name := "recording." ++ mimeSubtype (effectiveRecMime s)
    mimeType := effectiveRecMime s
    data := s.chunks.flatten }

/-- The recorder's `onstop` closure (inside `handleStartRecording`): when a
stop is pending, it packages the buffered chunks into a new `File`, derives
a playback URL, and installs both as `audioURL` and `audioFile`. -/
def fireOnstop (s : AppState) (url : String) : AppState :=
  if 0 < s.pendingStops then
    { s with audioURL := some url
             audioFile := some (recordedFileOf s)
             pendingStops := s.pendingStops - 1 }
  else s

/-- The `App` handler `handleClearRecording`. -/
def handleClearRecording (s : AppState) : AppState :=
  { s with audioURL := none, audioFile := none }

/-- First statement of `handleTabChange` in `AudioUploader`: switching to
the record tab while a file is selected clears the file
(`onFileSelect(null)`). -/
def recordSwitch (s : AppState) (t : Tab) : AppState :=
  if t = Tab.record ∧ s.audioFile.isSome then handleFileSelect s none else s

/-- Second statement of `handleTabChange` in `AudioUploader`: switching to
the upload tab while a recording exists or is in progress stops the
recorder and clears the recording. -/
def uploadSwitch (s : AppState) (t : Tab) : AppState :=
  if t = Tab.upload ∧ (s.audioURL.isSome ∨ s.isRecording) then
    handleClearRecording (handleStopRecording s)
  else s

/-- Last statement of `handleTabChange` in `AudioUploader`:
`setActiveTab(tab)`. -/
def setActiveTab (s : AppState) (t : Tab) : AppState :=
  { s with activeTab := t }

/-- The `AudioUploader` handler `handleTabChange`: switching to the record
tab with a file selected clears the file; switching to the upload tab with a
recording present or in progress stops the recorder and clears the
recording; then the active tab is set. -/
def handleTabChange (s : AppState) (t : Tab) : AppState :=
  setActiveTab (uploadSwitch (recordSwitch s t) t) t

/-- The `App` function `validateApiKey`, returning the validation verdict
and the `apiKeyError` message it sets. -/
def validateApiKey (key : String) : Bool × String :=
  if strTrim key = "" then
    (false, "API key cannot be empty.")
  else if ¬ strStartsWith (strTrim key) "AIza" then
    (false, "Invalid API key format. It should typically start with \"AIza\".")
  else
    (true, "")

/-- The `App` handler `handleApiKeySave`: validates the current `apiKey`
field; on success writes the raw key to the `GEMINI_API_KEY` storage entry
and marks it saved, on failure only the field-level error message changes. -/
def handleApiKeySave (s : AppState) : AppState :=
  let v := validateApiKey s.apiKey
  if v.1 then
    { s with storedKey := some s.apiKey, isKeySaved := true, apiKeyError := "" }
  else
    { s with apiKeyError := v.2 }

/-- Whether `process.env.API_KEY` counts as set (`!!process.env.API_KEY`). -/
def isEnvKeySet (envKey : Option String) : Bool :=
  match envKey with
  | some k => !(k == "")
  | none => false

/-- The key `handleAnalyze` uses:
`isEnvKeySet ? process.env.API_KEY! : apiKey`. -/
def finalKeyOf (s : AppState) (envKey : Option String) : String :=
  if isEnvKeySet envKey then envKey.getD "" else s.apiKey

/-- Side effects of one `handleAnalyze` run: the cues played and the calls
made into `analyzeVoiceTone` (base64 data, MIME type, API key). -/
structure AnalyzeEffects where
  cues : List Cue
  analyzerCalls : List (String × String × String)
deriving DecidableEq

/-- The `App` handler `handleAnalyze`, parameterised by the environment key
and the behaviour of the network call, returning the new state and the
effects (cues, analysis-client invocations). -/
def handleAnalyze (s : AppState) (envKey : Option String)
    (remote : Except (Option String) String) : AppState × AnalyzeEffects :=
  match s.audioFile with
  | none =>
    ({ s with error := "Please select or record an audio file first." },
     { cues := if s.isAudioFeedbackEnabled then [Cue.error] else []
       analyzerCalls := [] })
  | some f =>
    let finalApiKey := finalKeyOf s envKey
    if finalApiKey = "" then
      ({ s with error := "Please enter and save your Gemini API key before analyzing." },
       { cues := if s.isAudioFeedbackEnabled then [Cue.error] else []
         analyzerCalls := [] })
    else
      let s1 : AppState := { s with isLoading := true, analysisResult := "", error := "" }
      let p := fileToBase64 f
      if strStartsWith p.2 "audio/" = false then
        ({ s1 with error := "Invalid file type. Please upload an audio file."
                   isLoading := false },
         { cues := if s.isAudioFeedbackEnabled then [Cue.error] else []
           analyzerCalls := [] })
      else
        match analyzeVoiceTone p.1 p.2 finalApiKey remote with
        | (Except.ok text, _) =>
          ({ s1 with analysisResult := text, isLoading := false },
           { cues := if s.isAudioFeedbackEnabled then [Cue.success] else []
             analyzerCalls := [(p.1, p.2, finalApiKey)] })
        | (Except.error msg, _) =>
          ({ s1 with error := msg, isLoading := false },
           { cues := if s.isAudioFeedbackEnabled then [Cue.error] else []
             analyzerCalls := [(p.1, p.2, finalApiKey)] })

/-- The `App` handler `handleExampleClick`: clears the selection through
`handleFileSelect(null)` and installs the example text as the result. -/
def handleExampleClick (s : AppState) (txt : String) : AppState × List Cue :=
  let s1 := handleFileSelect s none
  ({ s1 with analysisResult := txt },
   if s.isAudioFeedbackEnabled then [Cue.success] else [])

/-- Events of the input-acquisition state machine: the user-driven handlers
plus the asynchronous recorder callbacks. -/
inductive Ev
  | selectFile (f : Option File)
  | startRec (r : MicResult)
  | stopRec
  | dataAvail (c : List Nat)
  | onstop (url : String)
  | clearRec
  | tabChange (t : Tab)
  | exampleClick (txt : String)
deriving DecidableEq

/-- One step of the state machine (cue effects dropped). `dataAvail` models
the recorder's `ondataavailable` callback, which can fire while recording
and once more between `stop()` and `onstop`. -/
def stepEv (s : AppState) : Ev → AppState
  | Ev.selectFile f => handleFileSelect s f
  | Ev.startRec r => (handleStartRecording s r).1
  | Ev.stopRec => handleStopRecording s
  | Ev.dataAvail c =>
    if s.recorder.isSome ∧ (s.isRecording ∨ 0 < s.pendingStops) then
      { s with chunks := s.chunks ++ [c] }
    else s
  | Ev.onstop url => fireOnstop s url
  | Ev.clearRec => handleClearRecording s
  | Ev.tabChange t => handleTabChange s t
  | Ev.exampleClick txt => (handleExampleClick s txt).1

/-- Run of the state machine over a sequence of events. -/
def run (s : AppState) (es : List Ev) : AppState :=
  es.foldl stepEv s

/-- Modelled from the spec: the claimed four-way selection of a fixed
user-facing sentence by case-insensitive substring matching on the
underlying error message. -/
def specUserSentence (m : String) : String :=
  if strContains (strToLower m) "api key not valid" || strContains (strToLower m) "permission denied" then
    invalidKeySentence
  else if strContains (strToLower m) "quota" then
    quotaSentence
  else if strContains (strToLower m) "400 bad request" then
    badRequestSentence
  else
    genericSentence

/-- `handleStopRecording` does not touch `audioURL`. -/
theorem stopRecording_audioURL (s : AppState) :
    (handleStopRecording s).audioURL = s.audioURL := by
  unfold handleStopRecording
  split
  · split <;> rfl
  · rfl

/-- `handleStopRecording` does not touch `audioFile`. -/
theorem stopRecording_audioFile (s : AppState) :
    (handleStopRecording s).audioFile = s.audioFile := by
  unfold handleStopRecording
  split
  · split <;> rfl
  · rfl

/-- `handleStopRecording` does not touch `analysisResult`. -/
theorem stopRecording_analysisResult (s : AppState) :
    (handleStopRecording s).analysisResult = s.analysisResult := by
  unfold handleStopRecording
  split
  · split <;> rfl
  · rfl

/-- `handleStopRecording` does not touch `error`. -/
theorem stopRecording_error (s : AppState) :
    (handleStopRecording s).error = s.error := by
  unfold handleStopRecording
  split
  · split <;> rfl
  · rfl
/-- After `handleFileSelect`, `audioURL` is cleared. -/
theorem fileSelect_audioURL (s : AppState) (f : Option File) :
    (handleFileSelect s f).audioURL = none := by
  simp only [handleFileSelect]
  split
  · rw [stopRecording_audioURL]
  · rfl

/-- After `handleFileSelect`, `audioFile` is the selected file. -/
theorem fileSelect_audioFile (s : AppState) (f : Option File) :
    (handleFileSelect s f).audioFile = f := by
  simp only [handleFileSelect]
  split
  · rw [stopRecording_audioFile]
  · rfl

/-- After `handleFileSelect`, `analysisResult` is cleared. -/
theorem fileSelect_analysisResult (s : AppState) (f : Option File) :
    (handleFileSelect s f).analysisResult = "" := by
  simp only [handleFileSelect]
  split
  · rw [stopRecording_analysisResult]
  · rfl

/-- After `handleFileSelect`, `error` is cleared. -/
theorem fileSelect_error (s : AppState) (f : Option File) :
    (handleFileSelect s f).error = "" := by
  simp only [handleFileSelect]
  split
  · rw [stopRecording_error]
  · rfl

/-- After `handleStartRecording`, `audioURL` is cleared (every outcome). -/
theorem startRecording_audioURL (s : AppState) (r : MicResult) :
    ((handleStartRecording s r).1).audioURL = none := by
  cases r <;> rfl

/-- After `handleStartRecording`, `audioFile` is cleared (every outcome). -/
theorem startRecording_audioFile (s : AppState) (r : MicResult) :
    ((handleStartRecording s r).1).audioFile = none := by
  cases r <;> rfl

/-- A completed recording never leaves a dangling `audioURL` without a file:
whenever `audioURL` is non-null, `audioFile` is non-null as well. -/
def UrlInv (s : AppState) : Prop :=
  s.audioURL.isSome = true → s.audioFile.isSome = true

/-- A recording in progress always has a live recorder in `recording` state. -/
def RecInv (s : AppState) : Prop :=
  s.isRecording = true → s.recorder.map MediaRecorder.state = some RecorderState.recording

/-- `handleFileSelect` establishes `UrlInv` outright. -/
theorem urlInv_fileSelect (s : AppState) (f : Option File) :
    UrlInv (handleFileSelect s f) := by
  intro hu
  rw [fileSelect_audioURL] at hu
  simp at hu

/-- `handleStopRecording` preserves `UrlInv`. -/
theorem urlInv_stop (s : AppState) (h : UrlInv s) :
    UrlInv (handleStopRecording s) := by
  intro hu
  rw [stopRecording_audioURL] at hu
  rw [stopRecording_audioFile]
  exact h hu

/-- `handleClearRecording` establishes `UrlInv` outright. -/
theorem urlInv_clear (s : AppState) : UrlInv (handleClearRecording s) := by
  intro hu
  simp [handleClearRecording] at hu

/-- Changing the active tab leaves `UrlInv` untouched. -/
theorem urlInv_setTab (s : AppState) (t : Tab) (h : UrlInv s) :
    UrlInv (setActiveTab s t) := h

/-- `recordSwitch` preserves `UrlInv`. -/
theorem urlInv_recordSwitch (s : AppState) (t : Tab) (h : UrlInv s) :
    UrlInv (recordSwitch s t) := by
  unfold recordSwitch
  split
  · exact urlInv_fileSelect s none
  · exact h

/-- `uploadSwitch` preserves `UrlInv`. -/
theorem urlInv_uploadSwitch (s : AppState) (t : Tab) (h : UrlInv s) :
    UrlInv (uploadSwitch s t) := by
  unfold uploadSwitch
  split
  · exact urlInv_clear _
  · exact h

/-- `handleTabChange` preserves `UrlInv`. -/
theorem urlInv_tabChange (s : AppState) (t : Tab) (h : UrlInv s) :
    UrlInv (handleTabChange s t) :=
  urlInv_setTab _ t (urlInv_uploadSwitch _ t (urlInv_recordSwitch s t h))

/-- Every event of the state machine preserves `UrlInv`. -/
theorem stepEv_urlInv (s : AppState) (e : Ev) (h : UrlInv s) : UrlInv (stepEv s e) := by
  cases e with
  | selectFile f => exact urlInv_fileSelect s f
  | startRec r =>
    intro hu
    rw [stepEv, startRecording_audioURL] at hu
    simp at hu
  | stopRec => exact urlInv_stop s h
  | dataAvail c =>
    intro hu
    rw [stepEv] at hu ⊢
    split at hu
    · rw [if_pos (by assumption)]
      exact h hu
    · rw [if_neg (by assumption)]
      exact h hu
  | onstop url =>
    intro hu
    rw [stepEv] at hu ⊢
    unfold fireOnstop at hu ⊢
    split at hu
    · rw [if_pos (by assumption)]
      rfl
    · rw [if_neg (by assumption)]
      exact h hu
  | clearRec => exact urlInv_clear s
  | tabChange t => exact urlInv_tabChange s t h
  | exampleClick txt =>
    intro hu
    rw [stepEv] at hu ⊢
    simp only [handleExampleClick] at hu ⊢
    have : (handleFileSelect s none).audioURL.isSome = true := hu
    rw [fileSelect_audioURL] at this
    simp at this

/-- `handleStopRecording` leaves `isRecording` false on states satisfying
`RecInv`. -/
theorem stop_isRecording (s : AppState) (h : RecInv s) :
    (handleStopRecording s).isRecording = false := by
  unfold handleStopRecording
  split
  · rename_i r heq
    split
    · rfl
    · rename_i hr
      cases hB : s.isRecording
      · rfl
      · have hm := h hB
        rw [heq] at hm
        simp at hm
        exact absurd hm hr
  · rename_i heq
    cases hB : s.isRecording
    · rfl
    · have hm := h hB
      rw [heq] at hm
      simp at hm

/-- `handleStopRecording` preserves `RecInv`. -/
theorem recInv_stop (s : AppState) (h : RecInv s) :
    RecInv (handleStopRecording s) := by
  unfold handleStopRecording
  split
  · split
    · intro hr
      simp at hr
    · exact h
  · exact h

/-- `handleFileSelect` preserves `RecInv`. -/
theorem recInv_fileSelect (s : AppState) (f : Option File) (h : RecInv s) :
    RecInv (handleFileSelect s f) := by
  simp only [handleFileSelect]
  split
  · exact recInv_stop _ h
  · exact h

/-- `handleClearRecording` preserves `RecInv`. -/
theorem recInv_clear (s : AppState) (h : RecInv s) :
    RecInv (handleClearRecording s) := h

/-- Changing the active tab preserves `RecInv`. -/
theorem recInv_setTab (s : AppState) (t : Tab) (h : RecInv s) :
    RecInv (setActiveTab s t) := h

/-- `recordSwitch` preserves `RecInv`. -/
theorem recInv_recordSwitch (s : AppState) (t : Tab) (h : RecInv s) :
    RecInv (recordSwitch s t) := by
  unfold recordSwitch
  split
  · exact recInv_fileSelect s none h
  · exact h

/-- `uploadSwitch` preserves `RecInv`. -/
theorem recInv_uploadSwitch (s : AppState) (t : Tab) (h : RecInv s) :
    RecInv (uploadSwitch s t) := by
  unfold uploadSwitch
  split
  · exact recInv_clear _ (recInv_stop _ h)
  · exact h

/-- `handleTabChange` preserves `RecInv`. -/
theorem recInv_tabChange (s : AppState) (t : Tab) (h : RecInv s) :
    RecInv (handleTabChange s t) :=
  recInv_setTab _ t (recInv_uploadSwitch _ t (recInv_recordSwitch s t h))

/-- Every event of the state machine preserves `RecInv`. -/
theorem stepEv_recInv (s : AppState) (e : Ev) (h : RecInv s) : RecInv (stepEv s e) := by
  cases e with
  | selectFile f => exact recInv_fileSelect s f h
  | startRec r =>
    cases r with
    | granted mime => intro hr; rfl
    | denied => exact h
    | unsupported => exact h
  | stopRec => exact recInv_stop s h
  | dataAvail c =>
    rw [stepEv]
    split
    · exact h
    · exact h
  | onstop url =>
    rw [stepEv]
    unfold fireOnstop
    split
    · exact h
    · exact h
  | clearRec => exact recInv_clear s h
  | tabChange t => exact recInv_tabChange s t h
  | exampleClick txt =>
    intro hr
    exact recInv_fileSelect s none h hr

/-- Any predicate preserved by every event holds along every run from a
state satisfying it. -/
theorem run_preserve (P : AppState → Prop) (hstep : ∀ s e, P s → P (stepEv s e)) :
    ∀ (es : List Ev) (s : AppState), P s → P (run s es)
  | [], _, h => h
  | e :: es, s, h => run_preserve P hstep es (stepEv s e) (hstep s e h)

/-- Switching to the upload tab leaves `recordSwitch` inert. -/
theorem recordSwitch_upload (s : AppState) :
    recordSwitch s Tab.upload = s := by
  unfold recordSwitch
  rw [if_neg]
  rintro ⟨h, _⟩
  simp at h

/-- Switching to the record tab leaves `uploadSwitch` inert. -/
theorem uploadSwitch_record (s : AppState) :
    uploadSwitch s Tab.record = s := by
  unfold uploadSwitch
  rw [if_neg]
  rintro ⟨h, _⟩
  simp at h

/-- Switching to the record tab always leaves `audioFile` null. -/
theorem tabChange_record_audioFile (s : AppState) :
    (handleTabChange s Tab.record).audioFile = none := by
  show (uploadSwitch (recordSwitch s Tab.record) Tab.record).audioFile = none
  rw [uploadSwitch_record]
  unfold recordSwitch
  split
  · exact fileSelect_audioFile s none
  · rename_i hc
    cases hB : s.audioFile with
    | none => rfl
    | some f => exact absurd ⟨rfl, by rw [hB]; rfl⟩ hc

/-- Switching to the upload tab synchronously leaves `audioURL` null and the
recorder stopped, on states satisfying `RecInv`. -/
theorem tabChange_upload_sync (s : AppState) (h : RecInv s) :
    (handleTabChange s Tab.upload).audioURL = none ∧
    (handleTabChange s Tab.upload).isRecording = false := by
  have hgoal :
      (uploadSwitch s Tab.upload).audioURL = none ∧
      (uploadSwitch s Tab.upload).isRecording = false := by
    unfold uploadSwitch
    split
    · refine ⟨rfl, ?_⟩
      show (handleStopRecording s).isRecording = false
      exact stop_isRecording s h
    · rename_i hc
      constructor
      · cases hB : s.audioURL with
        | none => rfl
        | some u => exact absurd ⟨rfl, Or.inl (by rw [hB]; rfl)⟩ hc
      · cases hB : s.isRecording with
        | false => rfl
        | true => exact absurd ⟨rfl, Or.inr hB⟩ hc
  show ((setActiveTab (uploadSwitch (recordSwitch s Tab.upload) Tab.upload) Tab.upload).audioURL = none ∧ _)
  rw [recordSwitch_upload]
  exact hgoal

/-- C1 counterexample: the mutual-exclusion claim, as stated over the fields
`audioFile` and `audioURL`, is false — after the call sequence
`startRecording` (granted), `stopRecording`, and the completion of the
recorder's `onstop` handler, both `audioFile` and `audioURL` are non-null,
because the `onstop` handler installs the packaged recording as `audioFile`
while also setting `audioURL`. -/
theorem C1_counterexample :
    (run initState [Ev.startRec (MicResult.granted "audio/webm"), Ev.stopRec,
        Ev.onstop "blob:rec-1"]).audioFile.isSome = true ∧
    (run initState [Ev.startRec (MicResult.granted "audio/webm"), Ev.stopRec,
        Ev.onstop "blob:rec-1"]).audioURL.isSome = true := by
  constructor <;> rfl

/-- C1 amended: after every sequence of calls (including `onstop`
completions), whenever the recording state `audioURL` is non-null the
file state `audioFile` is non-null as well — the recording is installed as
the selected file, never left as a second concurrent source; and
`selectFile` always nulls `audioURL`, so a genuine upload never coexists
with a recording URL set by anything but the recording's own `onstop`. -/
theorem C1_amended :
    (∀ es : List Ev, (run initState es).audioURL.isSome = true →
      (run initState es).audioFile.isSome = true) ∧
    (∀ (s : AppState) (f : Option File), (handleFileSelect s f).audioURL = none) := by
  constructor
  · intro es
    exact run_preserve UrlInv stepEv_urlInv es initState (by intro hu; simp [initState] at hu)
  · exact fileSelect_audioURL

/-- C1 witness: a concrete run reaching a state with `audioURL` non-null,
where the amended invariant yields `audioFile` non-null. -/
theorem C1_witness :
    (run initState [Ev.startRec (MicResult.granted ""), Ev.stopRec,
        Ev.onstop "blob:w1"]).audioFile.isSome = true :=
  C1_amended.1 [Ev.startRec (MicResult.granted ""), Ev.stopRec, Ev.onstop "blob:w1"]
    (by decide)

/-- C2 counterexample: switching to the upload tab while recording does not
leave the record-mode source null once the recorder's asynchronous `onstop`
handler runs — the handler re-installs the recording, so on the upload tab
`audioURL` (and `audioFile`) are non-null again. -/
theorem C2_counterexample :
    (run initState [Ev.startRec (MicResult.granted "audio/mp4"),
        Ev.tabChange Tab.upload, Ev.onstop "blob:rec-2"]).activeTab = Tab.upload ∧
    (run initState [Ev.startRec (MicResult.granted "audio/mp4"),
        Ev.tabChange Tab.upload, Ev.onstop "blob:rec-2"]).audioURL = some "blob:rec-2" ∧
    (run initState [Ev.startRec (MicResult.granted "audio/mp4"),
        Ev.tabChange Tab.upload, Ev.onstop "blob:rec-2"]).audioFile.isSome = true := by
  refine ⟨rfl, rfl, rfl⟩

/-- C2 amended: the guarantees of `handleTabChange` hold synchronously, at
the completion of the tab-switch handler itself: switching to the record
tab leaves `audioFile` null, and switching to the upload tab leaves
`audioURL` null and the recorder stopped — but if a recording was in
progress, the recorder's pending asynchronous `onstop` handler later
re-installs the recording, so the guarantee does not extend past `onstop`. -/
theorem C2_amended (es : List Ev) (t : Tab) :
    (t = Tab.record → (handleTabChange (run initState es) t).audioFile = none) ∧
    (t = Tab.upload → (handleTabChange (run initState es) t).audioURL = none ∧
      (handleTabChange (run initState es) t).isRecording = false) := by
  constructor
  · rintro rfl
    exact tabChange_record_audioFile _
  · rintro rfl
    exact tabChange_upload_sync _
      (run_preserve RecInv stepEv_recInv es initState (by intro hr; simp [initState] at hr))

/-- C2 witness: switching to the upload tab right after a recording started
leaves the recording state null and the recorder stopped. -/
theorem C2_witness :
    (handleTabChange (run initState [Ev.startRec (MicResult.granted "audio/ogg")])
        Tab.upload).audioURL = none ∧
    (handleTabChange (run initState [Ev.startRec (MicResult.granted "audio/ogg")])
        Tab.upload).isRecording = false :=
  (C2_amended [Ev.startRec (MicResult.granted "audio/ogg")] Tab.upload).2 rfl

/-- C3 counterexample: `analyzeVoiceTone` itself performs no MIME-type
validation — called directly with a non-audio MIME type and a non-empty
API key, it proceeds to the network call (second component `true`) and
succeeds, rather than failing with an invalid-input error beforehand. -/
theorem C3_counterexample :
    analyzeVoiceTone "Zm9v" "text/plain" "AIzaTest" (Except.ok "described voice")
      = (Except.ok "described voice", true) := by rfl

/-- C3 amended: the audio-MIME check lives in the caller `handleAnalyze`,
not in the Analysis Client: for every `handleAnalyze` run whose selected
file has a MIME type not starting with "audio/" (with an available key),
the invalid-file error is set, and `analyzeVoiceTone` — hence the network —
is never invoked. -/
theorem C3_amended (s : AppState) (envKey : Option String)
    (remote : Except (Option String) String) (f : File)
    (hf : s.audioFile = some f)
    (hm : strStartsWith f.mimeType "audio/" = false)
    (hk : finalKeyOf s envKey ≠ "") :
    (handleAnalyze s envKey remote).2.analyzerCalls = [] ∧
    (handleAnalyze s envKey remote).1.error
      = "Invalid file type. Please upload an audio file." ∧
    (handleAnalyze s envKey remote).1.isLoading = false := by
  unfold handleAnalyze
  rw [hf]
  simp only [fileToBase64]
  rw [if_neg hk, if_pos hm]
  exact ⟨rfl, rfl, rfl⟩

/-- C3 witness: a concrete state with a selected text file and a saved key;
`handleAnalyze` sets the invalid-file error and never calls the client. -/
theorem C3_witness :
    (handleAnalyze { initState with
        audioFile := some { name := "notes.txt", mimeType := "text/plain", data := [49] }
        apiKey := "AIzaKey" } none (Except.ok "r")).2.analyzerCalls = [] ∧
    (handleAnalyze { initState with
        audioFile := some { name := "notes.txt", mimeType := "text/plain", data := [49] }
        apiKey := "AIzaKey" } none (Except.ok "r")).1.error
      = "Invalid file type. Please upload an audio file." ∧
    (handleAnalyze { initState with
        audioFile := some { name := "notes.txt", mimeType := "text/plain", data := [49] }
        apiKey := "AIzaKey" } none (Except.ok "r")).1.isLoading = false :=
  C3_amended _ none (Except.ok "r")
    { name := "notes.txt", mimeType := "text/plain", data := [49] }
    rfl (by decide) (by decide)

/-- C4: invoking `handleAnalyze` with no audio file selected sets the
missing-input error, fires the error cue exactly when audio feedback is
enabled, never invokes the Analysis Client, and leaves every other state
field (`analysisResult`, `isLoading`, `apiKey`, ...) unchanged. -/
theorem C4 (s : AppState) (envKey : Option String)
    (remote : Except (Option String) String) (h : s.audioFile = none) :
    handleAnalyze s envKey remote =
      ({ s with error := "Please select or record an audio file first." },
       { cues := if s.isAudioFeedbackEnabled then [Cue.error] else []
         analyzerCalls := [] }) := by
  unfold handleAnalyze
  rw [h]

/-- C4 witness: `handleAnalyze` at the initial state (no file selected). -/
theorem C4_witness :
    handleAnalyze initState none (Except.ok "text") =
      ({ initState with error := "Please select or record an audio file first." },
       { cues := [Cue.error], analyzerCalls := [] }) :=
  C4 initState none (Except.ok "text") rfl

/-- C5 counterexample: the claim that the original technical error message
is never contained in the thrown user-facing message is false — an
underlying error whose message is "quota" maps to the fixed quota sentence,
and that sentence contains "quota" as a substring. -/
theorem C5_counterexample :
    mapGeminiError (some "quota") = quotaSentence ∧
    strContains quotaSentence "quota" = true := by
  constructor <;> decide

/-- C5 amended: for every `Error` failure the thrown message is selected by
the claimed case-insensitive substring matching among the four fixed
sentences (with a separate fixed default sentence when the thrown value is
not an `Error` instance); the output is always one of these five fixed,
pre-written sentences and is never built from the underlying text — though
a short underlying message may incidentally occur inside a fixed sentence. -/
theorem C5_amended (e : Option String) :
    mapGeminiError e = (match e with
      | some m => specUserSentence m
      | none => unknownSentence) ∧
    (mapGeminiError e = invalidKeySentence ∨ mapGeminiError e = quotaSentence ∨
     mapGeminiError e = badRequestSentence ∨ mapGeminiError e = genericSentence ∨
     mapGeminiError e = unknownSentence) := by
  constructor
  · cases e with
    | none => rfl
    | some m => rfl
  · cases e with
    | none => exact Or.inr (Or.inr (Or.inr (Or.inr rfl)))
    | some m =>
      simp only [mapGeminiError]
      split_ifs
      · exact Or.inl rfl
      · exact Or.inr (Or.inl rfl)
      · exact Or.inr (Or.inr (Or.inl rfl))
      · exact Or.inr (Or.inr (Or.inr (Or.inl rfl)))

/-- C6: any key whose trimmed form is empty or does not start with "AIza"
is rejected by `validateApiKey` with the fixed per-case message, and
`handleApiKeySave` neither writes the `GEMINI_API_KEY` storage entry nor
marks the key saved. -/
theorem C6 (s : AppState)
    (h : strTrim s.apiKey = "" ∨ strStartsWith (strTrim s.apiKey) "AIza" = false) :
    (validateApiKey s.apiKey).1 = false ∧
    (validateApiKey s.apiKey).2 =
      (if strTrim s.apiKey = "" then "API key cannot be empty."
       else "Invalid API key format. It should typically start with \"AIza\".") ∧
    (handleApiKeySave s).storedKey = s.storedKey ∧
    (handleApiKeySave s).isKeySaved = s.isKeySaved := by
  have hv : validateApiKey s.apiKey =
      (false, if strTrim s.apiKey = "" then "API key cannot be empty."
              else "Invalid API key format. It should typically start with \"AIza\".") := by
    unfold validateApiKey
    by_cases h1 : strTrim s.apiKey = ""
    · rw [if_pos h1, if_pos h1]
    · rcases h with h | h
      · exact absurd h h1
      · rw [if_neg h1, if_neg h1, if_pos (by simp [h])]
  refine ⟨by rw [hv], by rw [hv], ?_, ?_⟩
  · unfold handleApiKeySave
    rw [hv]
    rfl
  · unfold handleApiKeySave
    rw [hv]
    rfl

/-- C6 witness: the key "BIza123" has the wrong prefix; it is rejected with
the format message and nothing is stored. -/
theorem C6_witness :
    (validateApiKey ({ initState with apiKey := "BIza123" } : AppState).apiKey).1 = false ∧
    (validateApiKey ({ initState with apiKey := "BIza123" } : AppState).apiKey).2 =
      (if strTrim ({ initState with apiKey := "BIza123" } : AppState).apiKey = ""
       then "API key cannot be empty."
       else "Invalid API key format. It should typically start with \"AIza\".") ∧
    (handleApiKeySave { initState with apiKey := "BIza123" }).storedKey
      = ({ initState with apiKey := "BIza123" } : AppState).storedKey ∧
    (handleApiKeySave { initState with apiKey := "BIza123" }).isKeySaved
      = ({ initState with apiKey := "BIza123" } : AppState).isKeySaved :=
  C6 { initState with apiKey := "BIza123" } (Or.inr (by decide))

/-- C7 counterexample: with the audio-feedback preference disabled, a
denied microphone request sets the permission-denied error but fires no
error cue at all, so the claim that the error cue fires on every denial is
false. -/
theorem C7_counterexample :
    (handleStartRecording { initState with isAudioFeedbackEnabled := false }
        MicResult.denied).1.error = micDeniedMsg ∧
    (handleStartRecording { initState with isAudioFeedbackEnabled := false }
        MicResult.denied).2 = [] := ⟨rfl, rfl⟩

/-- C7 amended: on a denied microphone request the error is set to the
fixed message (which contains "Microphone access was denied"), the error
cue fires exactly when the audio-feedback preference is enabled, and no
recording session is created: the recorder reference, `isRecording`, and
the chunk buffer are all unchanged (in particular `isRecording` stays
false when it was false). -/
theorem C7_amended (s : AppState) :
    (handleStartRecording s MicResult.denied).1.error = micDeniedMsg ∧
    strContains micDeniedMsg "Microphone access was denied" = true ∧
    (handleStartRecording s MicResult.denied).2 =
      (if s.isAudioFeedbackEnabled then [Cue.error] else []) ∧
    (handleStartRecording s MicResult.denied).1.recorder = s.recorder ∧
    (handleStartRecording s MicResult.denied).1.isRecording = s.isRecording ∧
    (handleStartRecording s MicResult.denied).1.chunks = s.chunks := by
  refine ⟨rfl, by decide, rfl, rfl, rfl, rfl⟩

/-- C8 counterexample: `selectFile(null)` with no file selected is not a
no-op — after an example click installs a result text (with `audioFile`
null), `selectFile(null)` clears `analysisResult`, changing observable
state. -/
theorem C8_counterexample :
    (run initState [Ev.exampleClick "Warm voice."]).audioFile = none ∧
    (run initState [Ev.exampleClick "Warm voice."]).analysisResult = "Warm voice." ∧
    (run initState [Ev.exampleClick "Warm voice.", Ev.selectFile none]).analysisResult
      = "" := ⟨rfl, rfl, rfl⟩

/-- C8 amended: `selectFile(null)` with no file selected leaves `audioFile`
null but still clears `analysisResult`, `error` and `audioURL`; it is a
silent no-op exactly on states where those fields are already empty and no
recording is in progress. -/
theorem C8_amended (s : AppState) (h : s.audioFile = none) :
    (handleFileSelect s none).audioFile = none ∧
    (handleFileSelect s none).analysisResult = "" ∧
    (handleFileSelect s none).error = "" ∧
    (handleFileSelect s none).audioURL = none ∧
    (s.analysisResult = "" → s.error = "" → s.audioURL = none → s.isRecording = false →
      handleFileSelect s none = s) := by
  refine ⟨fileSelect_audioFile s none, fileSelect_analysisResult s none,
    fileSelect_error s none, fileSelect_audioURL s none, ?_⟩
  intro h1 h2 h3 h4
  cases s
  simp_all [handleFileSelect]

/-- C8 witness: at the initial state, `selectFile(null)` is a strict no-op. -/
theorem C8_witness :
    handleFileSelect initState none = initState :=
  (C8_amended initState rfl).2.2.2.2 rfl rfl rfl rfl

/-- C9: a key whose trimmed form starts with "AIza" but which carries
surrounding whitespace passes validation (performed on the trimmed form)
while `handleApiKeySave` persists the raw, untrimmed key to the
`GEMINI_API_KEY` storage entry and marks it saved — the stored value is the
original key, not its trimmed form. -/
theorem C9 (s : AppState)
    (h1 : strStartsWith (strTrim s.apiKey) "AIza" = true)
    (h2 : s.apiKey ≠ strTrim s.apiKey) :
    (validateApiKey s.apiKey).1 = true ∧
    (handleApiKeySave s).storedKey = some s.apiKey ∧
    (handleApiKeySave s).isKeySaved = true ∧
    (handleApiKeySave s).storedKey ≠ some (strTrim s.apiKey) := by
  have hne : strTrim s.apiKey ≠ "" := by
    intro h0
    rw [h0] at h1
    exact absurd h1 (by decide)
  have hv : validateApiKey s.apiKey = (true, "") := by
    unfold validateApiKey
    rw [if_neg hne, if_neg (by simp [h1])]
  have hsave : handleApiKeySave s =
      { s with storedKey := some s.apiKey, isKeySaved := true, apiKeyError := "" } := by
    unfold handleApiKeySave
    rw [hv]
    rfl
  refine ⟨by rw [hv], by rw [hsave], by rw [hsave], ?_⟩
  rw [hsave]
  intro hc
  simp only [Option.some.injEq] at hc
  exact h2 hc

/-- C9 witness: the key " AIzaX " (with spaces) validates and is stored
verbatim, spaces included. -/
theorem C9_witness :
    (validateApiKey ({ initState with apiKey := " AIzaX " } : AppState).apiKey).1 = true ∧
    (handleApiKeySave { initState with apiKey := " AIzaX " }).storedKey = some " AIzaX " ∧
    (handleApiKeySave { initState with apiKey := " AIzaX " }).isKeySaved = true ∧
    (handleApiKeySave { initState with apiKey := " AIzaX " }).storedKey
      ≠ some (strTrim ({ initState with apiKey := " AIzaX " } : AppState).apiKey) :=
  C9 { initState with apiKey := " AIzaX " } (by decide) (by decide)

/-- On a state with a selected audio file and an available key, a
successful `handleAnalyze` invokes the Analysis Client exactly once, with
the file\x27s base64 content, its MIME type, and the key. -/
theorem handleAnalyze_calls (s : AppState) (f : File) (envKey : Option String)
    (txt : String) (hf : s.audioFile = some f)
    (hk : finalKeyOf s envKey ≠ "")
    (hm : strStartsWith f.mimeType "audio/" = true) :
    (handleAnalyze s envKey (Except.ok txt)).2.analyzerCalls
      = [(encodeBase64 f.data, f.mimeType, finalKeyOf s envKey)] := by
  unfold handleAnalyze
  rw [hf]
  simp only [fileToBase64]
  rw [if_neg hk, if_neg (by simp [hm])]
  unfold analyzeVoiceTone
  rw [if_neg hk]

/-- C10: when a stop is pending, the `onstop` handler packages the buffered
chunks into a single `File` whose MIME type is the recorder's MIME type
(defaulting to "audio/webm"), whose name is "recording." followed by the
MIME subtype, and installs it as `audioFile` alongside the playback URL;
a subsequent `handleAnalyze` then goes through exactly the uploaded-file
path, invoking the Analysis Client with that file's base64 content and
MIME type. -/
theorem C10 (s : AppState) (url k txt : String)
    (hp : 0 < s.pendingStops)
    (hm : strStartsWith (effectiveRecMime s) "audio/" = true)
    (hk : k ≠ "") :
    (stepEv s (Ev.onstop url)).audioFile = some (recordedFileOf s) ∧
    (stepEv s (Ev.onstop url)).audioURL = some url ∧
    (recordedFileOf s).mimeType = effectiveRecMime s ∧
    (recordedFileOf s).name = "recording." ++ mimeSubtype (effectiveRecMime s) ∧
    (handleAnalyze (stepEv s (Ev.onstop url)) (some k) (Except.ok txt)).2.analyzerCalls
      = [(encodeBase64 s.chunks.flatten, effectiveRecMime s, k)] := by
  have hstep : stepEv s (Ev.onstop url) =
      { s with audioURL := some url
               audioFile := some (recordedFileOf s)
               pendingStops := s.pendingStops - 1 } := by
    show fireOnstop s url = _
    unfold fireOnstop
    rw [if_pos hp]
  have hkey : finalKeyOf
      { s with audioURL := some url
               audioFile := some (recordedFileOf s)
               pendingStops := s.pendingStops - 1 } (some k) = k := by
    unfold finalKeyOf isEnvKeySet
    simp [hk]
  refine ⟨by rw [hstep], by rw [hstep], rfl, rfl, ?_⟩
  rw [hstep]
  have hcall := handleAnalyze_calls
    { s with audioURL := some url
             audioFile := some (recordedFileOf s)
             pendingStops := s.pendingStops - 1 }
    (recordedFileOf s) (some k) txt rfl (by rw [hkey]; exact hk) hm
  rw [hkey] at hcall
  exact hcall

/-- C10 witness: a concrete pending stop with recorder MIME "audio/webm"
and two buffered chunks; the packaged file and the subsequent analyzer call
evaluate as claimed. -/
theorem C10_witness :
    (stepEv { initState with
        pendingStops := 1
        recorder := some { state := RecorderState.inactive, mimeType := "audio/webm" }
        chunks := [[1], [2, 3]] } (Ev.onstop "blob:done")).audioFile
      = some (recordedFileOf { initState with
          pendingStops := 1
          recorder := some { state := RecorderState.inactive, mimeType := "audio/webm" }
          chunks := [[1], [2, 3]] }) ∧
    (stepEv { initState with
        pendingStops := 1
        recorder := some { state := RecorderState.inactive, mimeType := "audio/webm" }
        chunks := [[1], [2, 3]] } (Ev.onstop "blob:done")).audioURL = some "blob:done" ∧
    (recordedFileOf { initState with
        pendingStops := 1
        recorder := some { state := RecorderState.inactive, mimeType := "audio/webm" }
        chunks := [[1], [2, 3]] }).mimeType
      = effectiveRecMime { initState with
          pendingStops := 1
          recorder := some { state := RecorderState.inactive, mimeType := "audio/webm" }
          chunks := [[1], [2, 3]] } ∧
    (recordedFileOf { initState with
        pendingStops := 1
        recorder := some { state := RecorderState.inactive, mimeType := "audio/webm" }
        chunks := [[1], [2, 3]] }).name
      = "recording." ++ mimeSubtype (effectiveRecMime { initState with
          pendingStops := 1
          recorder := some { state := RecorderState.inactive, mimeType := "audio/webm" }
          chunks := [[1], [2, 3]] }) ∧
    (handleAnalyze (stepEv { initState with
        pendingStops := 1
        recorder := some { state := RecorderState.inactive, mimeType := "audio/webm" }
        chunks := [[1], [2, 3]] } (Ev.onstop "blob:done")) (some "AIza1")
        (Except.ok "described")).2.analyzerCalls
      = [(encodeBase64 ([[1], [2, 3]] : List (List Nat)).flatten,
          effectiveRecMime { initState with
            pendingStops := 1
            recorder := some { state := RecorderState.inactive, mimeType := "audio/webm" }
            chunks := [[1], [2, 3]] }, "AIza1")] :=
  C10 { initState with
      pendingStops := 1
      recorder := some { state := RecorderState.inactive, mimeType := "audio/webm" }
      chunks := [[1], [2, 3]] } "blob:done" "AIza1" "described"
    (by decide) (by decide) (by decide)
